import Mathlib

/-!
Shallow embedding of the beluga FFI boundary layer (C++), covering the
Buffer value type (packages/beluga/src/cpp/common.cpp), the construction
functions and callback-marshaling adapters of the MQTT, Jobs and Secure
Tunnel facades (src/cpp/mqtt.cpp, packages/beluga/src/cpp/jobs.cpp,
packages/beluga/src/cpp/job.cpp, packages/beluga/src/cpp/tunnel.cpp).

Machine pointers are modelled as natural-number addresses, 0 standing for
the null pointer; the foreign allocator is modelled as the list of
addresses freed so far; native SDK results that the code only branches on
are modelled as boolean oracles.
-/

namespace Beluga

/-- The `Buffer` struct of common.h: a data pointer (address, 0 = null),
a length, and the ownership flag. -/
structure Buffer where
  data : Nat
  len : Nat
  owned : Bool
deriving DecidableEq, Repr

/-- Constructor `Buffer::Buffer()`: yields a null, empty,
non-owning buffer. -/
def Buffer.empty : Buffer := ⟨0, 0, false⟩

/-- Native `Aws::Crt::ByteBuf`: a byte buffer, modelled as the address of
its bytes plus its length. -/
structure ByteBuf where
  buffer : Nat
  len : Nat
deriving DecidableEq, Repr

/-- Native `Aws::Crt::ByteCursor`: a byte view, modelled as the address of
its bytes plus its length. -/
structure ByteCursor where
  ptr : Nat
  len : Nat
deriving DecidableEq, Repr

/-- Constructor `Buffer::Buffer(const ByteBuf&)`: borrows the native bytes, owned = false. -/
def Buffer.fromByteBuf (b : ByteBuf) : Buffer := ⟨b.buffer, b.len, false⟩

/-- Constructor `Buffer::Buffer(const ByteCursor&)`: borrows the native bytes, owned = false. -/
def Buffer.fromByteCursor (c : ByteCursor) : Buffer := ⟨c.ptr, c.len, false⟩

/-- Method `Buffer::is_empty` delegates to the foreign `is_buffer_empty`.
Modelled from the spec: `is_buffer_empty` is not under src/ (it is foreign
code); common.h documents `is_empty` as checking `len == 0`. -/
def Buffer.is_empty (b : Buffer) : Bool := b.len == 0

/-- Method `Buffer::is_owned`: returns the ownership flag. -/
def Buffer.is_owned (b : Buffer) : Bool := b.owned

/-- Method `Buffer::create` delegates to the foreign `create_buffer`.
Modelled from the spec: `create_buffer` is not under src/; the spec says it
allocates `size` bytes with ownership = true and returns an empty
owned-false Buffer if allocation fails. `addr` is the address the
allocator would hand out, `ok` whether allocation succeeds. -/
def Buffer.create (size : Nat) (addr : Nat) (ok : Bool) : Buffer :=
  if ok then ⟨addr, size, true⟩ else Buffer.empty

/-- The foreign allocator, modelled as the list of addresses freed so far. -/
structure AllocState where
  freed : List Nat
deriving DecidableEq, Repr

/-- Foreign `destroy_buffer`. Modelled from the spec: the foreign `destroy_buffer`
is not under src/; the spec says release frees the backing allocation and
clears the data view (null pointer, length 0). The ownership flag itself
is cleared by the caller (`Buffer::~Buffer`). -/
def destroy_buffer (σ : AllocState) (b : Buffer) : AllocState × Buffer :=
  (⟨b.data :: σ.freed⟩, ⟨0, 0, b.owned⟩)

/-- Destructor `Buffer::~Buffer` (the release operation): if the buffer is owned,
call `destroy_buffer` and clear the ownership flag; otherwise do nothing. -/
def Buffer.release (σ : AllocState) (b : Buffer) : AllocState × Buffer :=
  if b.is_owned then
    let p := destroy_buffer σ b
    (p.1, { p.2 with owned := false })
  else (σ, b)

/-- A heap of Buffer objects, indexed by address, for modelling
`Buffer::operator=(Buffer&&)`, which compares the addresses of the two
objects (`this != &other`). -/
def BufHeap := Nat → Buffer

/-- Move assignment `Buffer::operator=(Buffer&&)` acting on a heap of Buffer objects:
if the two addresses alias, nothing happens; otherwise the destination
takes over `data`, `len` and `owned` from the source and the source is
reset to null/0/false. `Buffer::Buffer(Buffer&&)` delegates to this with a
freshly constructed (hence distinct) destination. -/
def moveAssign (h : BufHeap) (dst src : Nat) : BufHeap :=
  if dst = src then h
  else fun a => if a = dst then h src else if a = src then ⟨0, 0, false⟩ else h a

/-- The `buffer` helper of tunnel.cpp: wraps an optional native
`ByteCursor` (service id, payload, message type) into a Buffer, using the
borrowing constructor when present and the default constructor when absent. -/
def tunnelBuffer (oc : Option ByteCursor) : Buffer :=
  match oc with
  | some c => Buffer.fromByteCursor c
  | none => Buffer.empty

/-- The job-document branch of `get_job_info` (jobs.cpp) and of
`update_job_execution_accepted` (job.cpp): when the native
`JobDocument` is present, its compact JSON serialisation (here: the
string itself) is copied into a Buffer obtained from `Buffer.create`,
which is move-assigned into `JobInfo.job_document` when non-empty;
when absent (or when `create` yields an empty buffer), the default
`JobInfo()` buffer (null, non-owning) is kept. `addr`/`alloc_ok` are the
answer of the foreign allocator for the `create` call. -/
def jobDocumentBuffer (doc : Option String) (addr : Nat) (alloc_ok : Bool) : Buffer :=
  match doc with
  | none => Buffer.empty
  | some json =>
    let buff := Buffer.create json.length addr alloc_ok
    if buff.is_empty = false then buff else Buffer.empty

/-- Struct `ClientConfig` of mqtt.h. C strings are modelled as `String`
(`strlen(s) != 0` becomes `s.length != 0`), certificate and private key
are Buffers. -/
structure ClientConfig where
  endpoint : String
  port : Nat
  client_id : String
  clean_session : Bool
  keep_alive_s : Nat
  ping_timeout_ms : Nat
  username : String
  password : String
  certificate : Buffer
  private_key : Buffer
deriving DecidableEq, Repr

/-- Which authentication branch of `internal_mqtt_client` is taken. -/
inductive AuthChoice where
  | certificate
  | password
  | missing
deriving DecidableEq, Repr

/-- The authentication if-chain at the top of `internal_mqtt_client`
(mqtt.cpp): certificate + private key first, then username + password,
else the error branch. -/
def selectAuth (c : ClientConfig) : AuthChoice :=
  if c.certificate.is_empty = false ∧ c.private_key.is_empty = false then
    AuthChoice.certificate
  else if c.username.length ≠ 0 ∧ c.password.length ≠ 0 then
    AuthChoice.password
  else
    AuthChoice.missing

/-- Observable steps of `internal_mqtt_client`: log lines and the native
calls it makes. -/
inductive MqttAction where
  | logDebug (msg : String)
  | logError (msg : String)
  | buildConfig
  | newConnection
  | registerLifecycleCallbacks
  | connect
deriving DecidableEq, Repr

/-- Results of the native steps of `internal_mqtt_client`:
`config_builder.Build()` truthiness, `!*connection` truthiness, and the
return value of `connection->Connect(...)`. -/
structure MqttOracle where
  config_ok : Bool
  connection_ok : Bool
  connect_ok : Bool
deriving DecidableEq, Repr

/-- Function `internal_mqtt_client` (mqtt.cpp): auth validation, config build,
connection creation, lifecycle-callback registration, connect. Returns
the trace of observable actions and the result (`none` = nullptr). -/
def internal_mqtt_client (c : ClientConfig) (o : MqttOracle) :
    List MqttAction × Option Unit :=
  let t0 := [MqttAction.logDebug ("start building internal mqtt client")]
  match selectAuth c with
  | AuthChoice.missing =>
    (t0 ++ [MqttAction.logError ("config is missing password auth or pub/priv key auth")], none)
  | _ =>
    let t1 := t0 ++ [MqttAction.buildConfig]
    if o.config_ok = false then
      (t1 ++ [MqttAction.logError ("failed to build a config for internal mqtt client")], none)
    else
      let t2 := t1 ++ [MqttAction.newConnection]
      if o.connection_ok = false then
        (t2 ++ [MqttAction.logError ("failed to create an internal mqtt client")], none)
      else
        let t3 := t2 ++ [MqttAction.registerLifecycleCallbacks, MqttAction.connect]
        if o.connect_ok = false then
          (t3 ++ [MqttAction.logError ("error during connect")], none)
        else (t3, some ())

/-- Results of the six `SubscribeTo*` calls of `internal_jobs_client`
(jobs.cpp), in source order. -/
structure JobsOracle where
  subGetPendingAccepted : Bool
  subGetPendingRejected : Bool
  subExecutionsChanged : Bool
  subNextExecutionChanged : Bool
  subStartNextAccepted : Bool
  subStartNextRejected : Bool
deriving DecidableEq, Repr

/-- Function `internal_jobs_client` (jobs.cpp): six required subscriptions, each
failure returning nullptr immediately. -/
def internal_jobs_client (o : JobsOracle) : Option Unit :=
  if o.subGetPendingAccepted = false then none
  else if o.subGetPendingRejected = false then none
  else if o.subExecutionsChanged = false then none
  else if o.subNextExecutionChanged = false then none
  else if o.subStartNextAccepted = false then none
  else if o.subStartNextRejected = false then none
  else some ()

/-- Results of the four `SubscribeTo*` calls of `internal_job` (job.cpp),
in source order. -/
structure JobOracle where
  subDescribeAccepted : Bool
  subDescribeRejected : Bool
  subUpdateAccepted : Bool
  subUpdateRejected : Bool
deriving DecidableEq, Repr

/-- Function `internal_job` (job.cpp): four required subscriptions, each failure
returning nullptr immediately. -/
def internal_job (o : JobOracle) : Option Unit :=
  if o.subDescribeAccepted = false then none
  else if o.subDescribeRejected = false then none
  else if o.subUpdateAccepted = false then none
  else if o.subUpdateRejected = false then none
  else some ()

/-- The null check of `internal_tunnel_client` (tunnel.cpp):
`!tunnel_client && !*tunnel_client`. `uptr_null` models `!tunnel_client`
(the unique_ptr holds no object), `deref_falsy` models `!*tunnel_client`. -/
def tunnelClientNullCheck (uptr_null deref_falsy : Bool) : Bool :=
  uptr_null && deref_falsy

/-- Function `internal_tunnel_client` (tunnel.cpp): builds the native client with
`std::make_unique` (which never yields a null pointer — it throws on
allocation failure — so `!tunnel_client` is false), runs the null check,
calls `SubscribeToTunnelsNotify` discarding its result, and returns a new
handle. `deref_falsy` models `!*tunnel_client`; `subscribe_ok` is the
discarded result of the subscription call. -/
def internal_tunnel_client (deref_falsy : Bool) (subscribe_ok : Bool) : Option Unit :=
  let uptr_null := false
  if tunnelClientNullCheck uptr_null deref_falsy then none
  else
    let _ := subscribe_ok
    some ()

/-- Function `internal_tunnel` (tunnel.cpp): `builder.Build()` either yields a
tunnel (`build_ok`) or null, in which case the constructor logs and
returns nullptr. -/
def internal_tunnel (build_ok : Bool) : Option Unit :=
  if build_ok = false then none else some ()

/-- Native `Aws::Iotjobs::RejectedErrorCode` (the rejection codes of the native
Jobs SDK). -/
inductive RejectedErrorCode where
  | InvalidTopic
  | InvalidJson
  | InvalidRequest
  | InvalidStateTransition
  | ResourceNotFound
  | VersionMismatch
  | InternalError
  | RequestThrottled
  | TerminalStateReached
deriving DecidableEq, Repr

/-- The native `Aws::Iotjobs::RejectedError` event: four optional fields
(`DateTime` modelled as epoch milliseconds). -/
structure RejectedError where
  ClientToken : Option String
  Code : Option RejectedErrorCode
  Message : Option String
  Timestamp : Option Nat
deriving DecidableEq, Repr

/-- The boundary `Rejected` POD of jobs.h: four nullable fields, modelled
as `Option` (a null pointer is `none`, a pointer to a live value is
`some` of that value). Field order follows jobs.h. -/
structure Rejected where
  timestamp : Option Nat
  code : Option RejectedErrorCode
  message : Option String
  client_token : Option String
deriving DecidableEq, Repr

/-- Constructor `Rejected::Rejected()` (jobs.cpp): all four fields null. -/
def Rejected.init : Rejected := ⟨none, none, none, none⟩

/-- The body of the `rejected` adapter (jobs.cpp): start from
`Rejected()`, then set each field iff the corresponding optional of the
native `RejectedError` is engaged, in source order (ClientToken, Code,
Message, Timestamp). -/
def marshalRejected (e : RejectedError) : Rejected :=
  let r0 := Rejected.init
  let r1 := match e.ClientToken with
    | some t => { r0 with client_token := some t }
    | none => r0
  let r2 := match e.Code with
    | some c => { r1 with code := some c }
    | none => r1
  let r3 := match e.Message with
    | some m => { r2 with message := some m }
    | none => r2
  match e.Timestamp with
  | some ts => { r3 with timestamp := some ts }
  | none => r3

/-- The boundary `DescribeExecutionRequest` POD of jobs.h: three nullable
fields. -/
structure DescribeExecutionRequest where
  execution_number : Option Int
  include_document : Option Bool
  job_id : Option String
deriving DecidableEq, Repr

/-- The native `Aws::Iotjobs::DescribeJobExecutionRequest`: optional
fields, all absent on default construction. -/
structure DescribeJobExecutionRequest where
  ThingName : Option String
  ExecutionNumber : Option Int
  IncludeJobDocument : Option Bool
  JobId : Option String
deriving DecidableEq, Repr

/-- The request-building part of `publish_describe_execution` (job.cpp):
default-construct the native request, set ThingName from the job handle,
then set each optional field iff the POD pointer is non-null, in source
order. -/
def describeExecutionNativeRequest (thing : String) (r : DescribeExecutionRequest) :
    DescribeJobExecutionRequest :=
  let q0 : DescribeJobExecutionRequest := ⟨none, none, none, none⟩
  let q1 := { q0 with ThingName := some thing }
  let q2 := match r.execution_number with
    | some n => { q1 with ExecutionNumber := some n }
    | none => q1
  let q3 := match r.include_document with
    | some b => { q2 with IncludeJobDocument := some b }
    | none => q2
  match r.job_id with
  | some j => { q3 with JobId := some j }
  | none => q3

/-- The native `SecureTunnelingNotifyResponse`: three optional string
fields. -/
structure NotifyResponse where
  ClientAccessToken : Option String
  Region : Option String
  ClientMode : Option String
deriving DecidableEq, Repr

/-- Observable steps of the tunnel-notify `subscribe_callback`
(tunnel.cpp): an error log line, or the `on_subscribe_tunnel` boundary
callback with the three strings. -/
inductive TunnelNotifyAction where
  | logError (msg : String)
  | onSubscribeTunnel (token region mode : String)
deriving DecidableEq, Repr

/-- Adapter `subscribe_callback` (tunnel.cpp): guard chain over io_error, the
response pointer, and the three optional fields; each failing guard logs
one error and returns; only when all guards pass is the boundary
`on_subscribe_tunnel` invoked. -/
def subscribe_callback (resp : Option NotifyResponse) (io_error : Int) :
    List TunnelNotifyAction :=
  if io_error ≠ 0 then [TunnelNotifyAction.logError ("subscribing failed")]
  else
    match resp with
    | none => [TunnelNotifyAction.logError ("response equals nullptr")]
    | some r =>
      match r.ClientAccessToken with
      | none => [TunnelNotifyAction.logError ("missing the access token")]
      | some token =>
        match r.Region with
        | none => [TunnelNotifyAction.logError ("missing the region")]
        | some region =>
          match r.ClientMode with
          | none => [TunnelNotifyAction.logError ("missing the client mode")]
          | some mode => [TunnelNotifyAction.onSubscribeTunnel token region mode]

/-- One invocation of the boundary `on_sub_ack` callback (mqtt.cpp):
opaque context omitted (it is the same captured value for all calls),
packet id, topic, qos, error code. -/
structure SubAckCall where
  packet_id : Nat
  topic : String
  qos : Nat
  error_code : Int
deriving DecidableEq, Repr

/-- The acknowledgment lambda of `subscribe_multiple` (mqtt.cpp): iterate
over the topics of the native acknowledgment event, invoking
`on_sub_ack` once per topic with the same packet id, qos and error code. -/
def multiSubAck (packet_id : Nat) (topics : List String) (qos : Nat) (err : Int) :
    List SubAckCall :=
  match topics with
  | [] => []
  | t :: ts => ⟨packet_id, t, qos, err⟩ :: multiSubAck packet_id ts qos err

/-! ## Theorems -/

/-- C3 (counterexample): release does not clear every Buffer. A
non-owning Buffer viewing borrowed memory at address 5 with length 3 is
returned unchanged by release: its data pointer stays 5 (not null),
contradicting the claim that release always clears the struct. -/
theorem borrowed_buffer_release_leaves_data :
    (Buffer.release ⟨[]⟩ ⟨5, 3, false⟩).2 = (⟨5, 3, false⟩ : Buffer) ∧ (5 : Nat) ≠ 0 := by
  constructor
  · rfl
  · decide

/-- C3 (amended): release frees the backing allocation iff the Buffer is
owned; when owned, it records exactly one free of the data address and
clears the struct to the empty non-owning state; when not owned, it
leaves both the allocator and the Buffer unchanged; in either case a
second release of the result changes nothing, so the backing allocation
is freed at most once. -/
theorem buffer_release_behavior (σ : AllocState) (b : Buffer) :
    (b.owned = true →
      Buffer.release σ b = (⟨b.data :: σ.freed⟩, Buffer.empty)) ∧
    (b.owned = false → Buffer.release σ b = (σ, b)) ∧
    Buffer.release (Buffer.release σ b).1 (Buffer.release σ b).2 = Buffer.release σ b := by
  cases hb : b.owned <;>
    simp [Buffer.release, Buffer.is_owned, destroy_buffer, Buffer.empty, hb]

/-- Witness for `buffer_release_behavior`: an owned Buffer at address 7
is freed once and cleared. -/
theorem buffer_release_behavior_witness :
    Buffer.release ⟨[]⟩ ⟨7, 4, true⟩ = ((⟨[7]⟩ : AllocState), Buffer.empty) :=
  (buffer_release_behavior ⟨[]⟩ ⟨7, 4, true⟩).1 rfl

/-- C4: after a move assignment (or move construction, which delegates
to it) between two distinct Buffer objects, the destination holds
exactly the data pointer, length and ownership flag the source held, and
the source is reset to the default empty non-owning state. -/
theorem buffer_move_transfers_and_resets (h : BufHeap) (dst src : Nat)
    (hne : dst ≠ src) :
    moveAssign h dst src dst = h src ∧
    moveAssign h dst src src = (⟨0, 0, false⟩ : Buffer) ∧
    (moveAssign h dst src src).is_owned = false ∧
    (moveAssign h dst src src).is_empty = true := by
  have hsd : ¬src = dst := fun hc => hne hc.symm
  refine ⟨?_, ?_, ?_, ?_⟩ <;>
    simp [moveAssign, hne, hsd, Buffer.is_owned, Buffer.is_empty]

/-- Witness for `buffer_move_transfers_and_resets`: moving the Buffer at
address 1 (data 7, length 2, owned) into address 0 transfers all three
fields and empties the source. -/
theorem buffer_move_transfers_and_resets_witness :
    moveAssign (fun _ => ⟨7, 2, true⟩) 0 1 0 = (⟨7, 2, true⟩ : Buffer) ∧
    moveAssign (fun _ => ⟨7, 2, true⟩) 0 1 1 = (⟨0, 0, false⟩ : Buffer) ∧
    (moveAssign (fun _ => ⟨7, 2, true⟩) 0 1 1).is_owned = false ∧
    (moveAssign (fun _ => ⟨7, 2, true⟩) 0 1 1).is_empty = true :=
  buffer_move_transfers_and_resets (fun _ => ⟨7, 2, true⟩) 0 1 (by decide)

/-- C1 (counterexample): the job document embedded in `JobInfo` is not
non-owning. With a present job document of length 3 and a successful
allocation at address 1, `get_job_info` stores a Buffer with
`is_owned() == true`, because it is built with `Buffer::create` and a
copy, not with the borrowing constructor. -/
theorem job_document_buffer_is_owning :
    (jobDocumentBuffer (some ("doc")) 1 true).is_owned = true := by
  decide

/-- C1 (amended): every Buffer an adapter embeds in a callback payload
from borrowed native memory — the MQTT message payload (built from the
native ByteBuf) and the tunnel service-id/payload/message-type buffers
(built from optional native ByteCursors) — is non-owning; the job
document inside `JobInfo` is the exception: it is built with
`Buffer::create` plus a copy, hence owning whenever the native document
is present, non-empty and the allocation succeeds, and non-owning (the
default empty Buffer) when the document is absent. -/
theorem adapter_payload_buffer_ownership :
    (∀ bb : ByteBuf, (Buffer.fromByteBuf bb).is_owned = false) ∧
    (∀ cur : ByteCursor, (Buffer.fromByteCursor cur).is_owned = false) ∧
    (∀ oc : Option ByteCursor, (tunnelBuffer oc).is_owned = false) ∧
    (∀ (json : String) (addr : Nat), 0 < json.length →
      (jobDocumentBuffer (some json) addr true).is_owned = true) ∧
    (∀ (addr : Nat) (ok : Bool), (jobDocumentBuffer none addr ok).is_owned = false) := by
  refine ⟨fun bb => rfl, fun cur => rfl, ?_, ?_, fun addr ok => rfl⟩
  · intro oc
    cases oc <;> rfl
  · intro json addr hlen
    have hne : (json.length == 0) = false := by
      simp [Nat.pos_iff_ne_zero.mp hlen]
    simp [jobDocumentBuffer, Buffer.create, Buffer.is_empty, Buffer.is_owned, hne]

/-- Witness for `adapter_payload_buffer_ownership`: a present job
document of length 3 with a successful allocation at address 5 yields an
owning Buffer. -/
theorem adapter_payload_buffer_ownership_witness :
    (jobDocumentBuffer (some ("abc")) 5 true).is_owned = true :=
  adapter_payload_buffer_ownership.2.2.2.1 ("abc") 5 (by decide)

/-- C2 (counterexample): `internal_tunnel_client` is not all-or-nothing.
With the native client object usable and its `SubscribeToTunnelsNotify`
registration failing (second argument `false`), construction still
returns a non-null handle, because the subscription result is discarded. -/
theorem tunnel_client_constructs_despite_failed_subscription :
    (internal_tunnel_client false false).isSome = true := by
  decide

/-- C2 (amended): `internal_mqtt_client`, `internal_jobs_client`,
`internal_job` and `internal_tunnel` are all-or-nothing — each returns a
handle exactly when every native setup step and every required
subscription succeeds (and, for MQTT, authentication is configured).
`internal_tunnel_client` is the exception: it discards the result of its
`SubscribeToTunnelsNotify` registration and its null check is
unreachable, so it always returns a non-null handle. -/
theorem construction_all_or_nothing :
    (∀ (c : ClientConfig) (o : MqttOracle),
      (internal_mqtt_client c o).2.isSome = true ↔
        (selectAuth c ≠ AuthChoice.missing ∧ o.config_ok = true ∧
         o.connection_ok = true ∧ o.connect_ok = true)) ∧
    (∀ o : JobsOracle,
      (internal_jobs_client o).isSome = true ↔
        (o.subGetPendingAccepted = true ∧ o.subGetPendingRejected = true ∧
         o.subExecutionsChanged = true ∧ o.subNextExecutionChanged = true ∧
         o.subStartNextAccepted = true ∧ o.subStartNextRejected = true)) ∧
    (∀ o : JobOracle,
      (internal_job o).isSome = true ↔
        (o.subDescribeAccepted = true ∧ o.subDescribeRejected = true ∧
         o.subUpdateAccepted = true ∧ o.subUpdateRejected = true)) ∧
    (∀ build_ok : Bool, (internal_tunnel build_ok).isSome = true ↔ build_ok = true) ∧
    (∀ deref_falsy subscribe_ok : Bool,
      (internal_tunnel_client deref_falsy subscribe_ok).isSome = true) := by
  refine ⟨?_, ?_, ?_, ?_, ?_⟩
  · intro c o
    rcases o with ⟨cfg, conn, con⟩
    cases hs : selectAuth c <;> cases cfg <;> cases conn <;> cases con <;>
      simp [internal_mqtt_client, hs]
  · intro o
    rcases o with ⟨a, b, c, d, e, f⟩
    cases a <;> cases b <;> cases c <;> cases d <;> cases e <;> cases f <;>
      simp [internal_jobs_client]
  · intro o
    rcases o with ⟨a, b, c, d⟩
    cases a <;> cases b <;> cases c <;> cases d <;> simp [internal_job]
  · intro b
    cases b <;> simp [internal_tunnel]
  · intro d s
    cases d <;> cases s <;> rfl

/-- C5: the failure check of `internal_tunnel_client`,
`(!tunnel_client && !*tunnel_client)`, is never true for a tunnel client
freshly produced by `make_unique` (the unique_ptr is non-null, so the
first conjunct is false and `&&` short-circuits), so the null-returning
branch it guards is unreachable and construction cannot fail through
that check. -/
theorem tunnel_client_null_check_unreachable :
    (∀ deref_falsy : Bool, tunnelClientNullCheck false deref_falsy = false) ∧
    (∀ deref_falsy subscribe_ok : Bool,
      internal_tunnel_client deref_falsy subscribe_ok ≠ none) := by
  decide

/-- C6: `internal_mqtt_client` validates authentication with certificate
auth checked first: when both the certificate and the private key are
non-empty the certificate branch is taken; otherwise, when both username
and password are non-empty strings the password branch is taken; and
when neither pair is present the function logs one error and returns
null with no config build, connection creation or connect attempted. -/
theorem mqtt_auth_validation :
    (∀ c : ClientConfig, c.certificate.is_empty = false →
      c.private_key.is_empty = false → selectAuth c = AuthChoice.certificate) ∧
    (∀ c : ClientConfig,
      (c.certificate.is_empty = true ∨ c.private_key.is_empty = true) →
      c.username.length ≠ 0 → c.password.length ≠ 0 →
      selectAuth c = AuthChoice.password) ∧
    (∀ (c : ClientConfig) (o : MqttOracle), selectAuth c = AuthChoice.missing →
      internal_mqtt_client c o =
        ([MqttAction.logDebug ("start building internal mqtt client"),
          MqttAction.logError ("config is missing password auth or pub/priv key auth")],
         none)) := by
  refine ⟨?_, ?_, ?_⟩
  · intro c h1 h2
    simp [selectAuth, h1, h2]
  · intro c h h3 h4
    have hcert : ¬(c.certificate.is_empty = false ∧ c.private_key.is_empty = false) := by
      rcases h with h | h <;> simp [h]
    simp [selectAuth, hcert, h3, h4]
  · intro c o hmiss
    simp [internal_mqtt_client, hmiss]

/-- Witness for `mqtt_auth_validation`: a config with a non-empty
certificate and private key selects certificate auth even when username
and password are also set; a config with no credentials at all makes
`internal_mqtt_client` log the error and return null. -/
theorem mqtt_auth_validation_witness :
    selectAuth ⟨"e", 0, "id", false, 0, 0, "u", "p", ⟨1, 10, false⟩, ⟨2, 8, false⟩⟩ =
      AuthChoice.certificate ∧
    internal_mqtt_client ⟨"e", 0, "id", false, 0, 0, "", "", Buffer.empty, Buffer.empty⟩
        ⟨true, true, true⟩ =
      ([MqttAction.logDebug ("start building internal mqtt client"),
        MqttAction.logError ("config is missing password auth or pub/priv key auth")],
       none) :=
  ⟨mqtt_auth_validation.1 _ (by decide) (by decide),
   mqtt_auth_validation.2.2 _ ⟨true, true, true⟩ (by decide)⟩

/-- C7: the `rejected` adapter copies each optional field of the native
`RejectedError` into the boundary `Rejected` POD, so each POD field is
present (non-null) with the native value iff the native optional is
engaged; in particular an event with only Code and Message present
yields non-null code and message and null timestamp and client token. -/
theorem rejected_marshal_fields (e : RejectedError) :
    (marshalRejected e).client_token = e.ClientToken ∧
    (marshalRejected e).code = e.Code ∧
    (marshalRejected e).message = e.Message ∧
    (marshalRejected e).timestamp = e.Timestamp ∧
    (e.Code = some RejectedErrorCode.InvalidStateTransition →
      e.Message = some ("bad state") → e.Timestamp = none → e.ClientToken = none →
      marshalRejected e =
        ⟨none, some RejectedErrorCode.InvalidStateTransition, some ("bad state"), none⟩) := by
  rcases e with ⟨ct, co, me, ts⟩
  cases ct <;> cases co <;> cases me <;> cases ts <;>
    simp [marshalRejected, Rejected.init] <;> tauto

/-- Witness for `rejected_marshal_fields`: a native rejection with
`Code = InvalidStateTransition` and `Message = "bad state"` and nothing
else marshals to a `Rejected` POD with exactly those two fields present. -/
theorem rejected_marshal_fields_witness :
    marshalRejected ⟨none, some RejectedErrorCode.InvalidStateTransition,
        some ("bad state"), none⟩ =
      ⟨none, some RejectedErrorCode.InvalidStateTransition, some ("bad state"), none⟩ :=
  (rejected_marshal_fields _).2.2.2.2 rfl rfl rfl rfl

/-- C8: `publish_describe_execution` sets each optional field of the
native `DescribeJobExecutionRequest` iff the corresponding POD pointer
is non-null (with the same value) and always sets ThingName; in
particular, with `execution_number` null and `job_id = "job-42"`, the
native request has ExecutionNumber absent and JobId equal to "job-42". -/
theorem describe_execution_request_marshal (thing : String)
    (r : DescribeExecutionRequest) :
    (describeExecutionNativeRequest thing r).ThingName = some thing ∧
    (describeExecutionNativeRequest thing r).ExecutionNumber = r.execution_number ∧
    (describeExecutionNativeRequest thing r).IncludeJobDocument = r.include_document ∧
    (describeExecutionNativeRequest thing r).JobId = r.job_id ∧
    (r.execution_number = none → r.job_id = some ("job-42") →
      (describeExecutionNativeRequest thing r).ExecutionNumber = none ∧
      (describeExecutionNativeRequest thing r).JobId = some ("job-42")) := by
  rcases r with ⟨en, inc, jid⟩
  cases en <;> cases inc <;> cases jid <;>
    simp [describeExecutionNativeRequest]

/-- Witness for `describe_execution_request_marshal`: calling with
`execution_number = null` and `job_id = "job-42"` yields a native
request with ExecutionNumber absent and JobId present as "job-42". -/
theorem describe_execution_request_marshal_witness :
    (describeExecutionNativeRequest ("thing") ⟨none, none, some ("job-42")⟩).ExecutionNumber
        = none ∧
    (describeExecutionNativeRequest ("thing") ⟨none, none, some ("job-42")⟩).JobId
        = some ("job-42") :=
  (describe_execution_request_marshal ("thing") ⟨none, none, some ("job-42")⟩).2.2.2.2
    rfl rfl

/-- C9: the tunnel-notify `subscribe_callback` invokes the boundary
`on_subscribe_tunnel` exactly when the native event has io_error = 0, a
non-null response, and ClientAccessToken, Region and ClientMode all
present; in every other case it emits a single error log line and no
boundary callback, so no error code for that event reaches the caller. -/
theorem tunnel_notify_guarded_dispatch (resp : Option NotifyResponse) (io_error : Int) :
    (∀ (r : NotifyResponse) (t rg m : String), io_error = 0 → resp = some r →
      r.ClientAccessToken = some t → r.Region = some rg → r.ClientMode = some m →
      subscribe_callback resp io_error = [TunnelNotifyAction.onSubscribeTunnel t rg m]) ∧
    ((io_error ≠ 0 ∨ resp = none ∨
      (∃ r : NotifyResponse, resp = some r ∧
        (r.ClientAccessToken = none ∨ r.Region = none ∨ r.ClientMode = none))) →
      ∃ msg : String, subscribe_callback resp io_error = [TunnelNotifyAction.logError msg]) := by
  constructor
  · intro r t rg m h0 hr ht hrg hm
    subst h0 hr
    simp [subscribe_callback, ht, hrg, hm]
  · intro h
    rcases h with h | h | ⟨r, hr, hf⟩
    · exact ⟨"subscribing failed", by simp [subscribe_callback, h]⟩
    · subst h
      by_cases h0 : io_error = 0
      · subst h0
        exact ⟨"response equals nullptr", by simp [subscribe_callback]⟩
      · exact ⟨"subscribing failed", by simp [subscribe_callback, h0]⟩
    · subst hr
      by_cases h0 : io_error = 0
      · subst h0
        rcases hf with hf | hf | hf
        · exact ⟨"missing the access token", by simp [subscribe_callback, hf]⟩
        · rcases ht : r.ClientAccessToken with _ | t
          · exact ⟨"missing the access token", by simp [subscribe_callback, ht]⟩
          · exact ⟨"missing the region", by simp [subscribe_callback, ht, hf]⟩
        · rcases ht : r.ClientAccessToken with _ | t
          · exact ⟨"missing the access token", by simp [subscribe_callback, ht]⟩
          · rcases hrg : r.Region with _ | rg
            · exact ⟨"missing the region", by simp [subscribe_callback, ht, hrg]⟩
            · exact ⟨"missing the client mode", by simp [subscribe_callback, ht, hrg, hf]⟩
      · exact ⟨"subscribing failed", by simp [subscribe_callback, h0]⟩

/-- Witness for `tunnel_notify_guarded_dispatch`: a fully populated
event with io_error 0 dispatches the boundary callback with the three
strings; a null response with io_error 0 produces only an error log. -/
theorem tunnel_notify_guarded_dispatch_witness :
    subscribe_callback (some ⟨some ("tok"), some ("reg"), some ("mode")⟩) 0 =
      [TunnelNotifyAction.onSubscribeTunnel ("tok") ("reg") ("mode")] ∧
    (∃ msg : String, subscribe_callback none 0 = [TunnelNotifyAction.logError msg]) :=
  ⟨(tunnel_notify_guarded_dispatch (some ⟨some ("tok"), some ("reg"), some ("mode")⟩) 0).1
      _ _ _ _ rfl rfl rfl rfl rfl,
   (tunnel_notify_guarded_dispatch none 0).2 (Or.inr (Or.inl rfl))⟩

/-- C10: for the single native subscription-acknowledgment event of
`subscribe_multiple`, the handler invokes the boundary `on_sub_ack`
callback once per topic of the acknowledgment, in order, each invocation
carrying the same packet id, qos and error code. -/
theorem multi_sub_ack_fanout (packet_id : Nat) (topics : List String)
    (qos : Nat) (err : Int) :
    multiSubAck packet_id topics qos err =
      topics.map (fun t => ⟨packet_id, t, qos, err⟩) ∧
    (multiSubAck packet_id topics qos err).length = topics.length := by
  have hmap : multiSubAck packet_id topics qos err =
      topics.map (fun t => (⟨packet_id, t, qos, err⟩ : SubAckCall)) := by
    induction topics with
    | nil => rfl
    | cons t ts ih => simp [multiSubAck, ih]
  exact ⟨hmap, by simp [hmap]⟩

end Beluga
